import Mathlib

/-!
Verification of the ClashRoyaleAPI client (src/api/api.py, src/api/modules/errors.py)
against its specification, via a shallow embedding in Lean 4.

JSON values are embedded as the inductive `Json`, with `Json.null` also standing
for the Python value `None` (Python`s json layer maps JSON null to None, and the
dict method `get` returns None for an absent key, so the two coincide exactly as
in the source).  Time is passed explicitly as an integer parameter `now` in
place of `time.time()`.  Fallible Python expressions (subscripting, int(),
attribute access on None) are embedded in the `Except PyError` monad, and the
typed exceptions raised by `fetch_api_request` in `Except ApiException`.
-/

/-- A JSON value as produced by `response.json()`; `null` also models Python None. -/
inductive Json where
  | null : Json
  | bool : Bool → Json
  | num : Int → Json
  | str : String → Json
  | arr : List Json → Json
  | obj : List (String × Json) → Json

/-- Python truthiness of a JSON value: None, False, 0, empty string and empty
containers are falsy, everything else truthy. -/
def Json.truthy : Json → Bool
  | .null => false
  | .bool b => b
  | .num n => n != 0
  | .str s => s != ""
  | .arr l => !l.isEmpty
  | .obj l => !l.isEmpty

/-- Python runtime errors that the accessor code can raise. -/
inductive PyError where
  | typeError : String → PyError
  | keyError : String → PyError
  | valueError : String → PyError
  | attributeError : String → PyError
deriving DecidableEq

/-- Python `d.get(key)` on a value expected to be a dict: returns the stored
value, or None (here `Json.null`) when the key is absent; raises AttributeError
when the receiver is not a dict (e.g. None). -/
def Json.get : Json → String → Except PyError Json
  | .obj fields, key => .ok ((fields.lookup key).getD .null)
  | .null, _ => .error (.attributeError "NoneType object has no attribute get")
  | _, _ => .error (.attributeError "object has no attribute get")

/-- Python `d[key]` subscripting with a string key: KeyError when the key is
absent from a dict, TypeError when the receiver is None or not subscriptable
by a string. -/
def Json.subscript : Json → String → Except PyError Json
  | .obj fields, key =>
      match fields.lookup key with
      | some v => .ok v
      | none => .error (.keyError key)
  | .null, _ => .error (.typeError "NoneType object is not subscriptable")
  | _, _ => .error (.typeError "object is not subscriptable by a string")

/-- Python `str(v)` on the JSON scalar values the accessors observe.  For
containers Python would produce their repr; none of the verified accessors
apply `str` to a container, so those cases map to an opaque tag. -/
def Json.pyStr : Json → String
  | .null => "None"
  | .bool true => "True"
  | .bool false => "False"
  | .num n => toString n
  | .str s => s
  | .arr _ => "<list repr>"
  | .obj _ => "<dict repr>"

/-- Python `int(v)`: identity on integers, 0/1 on booleans, decimal parse on
strings (ValueError on failure), TypeError on None and containers. -/
def Json.pyInt : Json → Except PyError Int
  | .num n => .ok n
  | .bool b => .ok (if b then 1 else 0)
  | .str s =>
      match s.toInt? with
      | some n => .ok n
      | none => .error (.valueError "invalid literal for int")
  | .null => .error (.typeError "int argument must not be NoneType")
  | _ => .error (.typeError "int argument must not be a container")

/-! ## APICache (src/api/api.py lines 17-41)

State passing: `get` returns the looked-up value together with the possibly
mutated cache (expired entries are popped on lookup). Timestamps and the TTL
are integers; `now` stands for `time.time()`. -/

/-- The in-memory response cache: an association list from URL to
(timestamp, data), plus the configured TTL (`none` = cache forever). -/
structure APICache where
  cache : List (String × Int × Json)
  ttl : Option Int

/-- `APICache._is_valid`: an entry is valid when the TTL is None (never
expires) or the elapsed time since its timestamp is below the TTL. -/
def APICache.is_valid (c : APICache) (now timestamp : Int) : Bool :=
  match c.ttl with
  | none => true
  | some t => now - timestamp < t

/-- `APICache.get`: return the stored data when present and valid; pop the
entry and return None when present but expired; return None when absent.
The second component is the cache after the lookup. -/
def APICache.get (c : APICache) (now : Int) (url : String) : Option Json × APICache :=
  match c.cache.lookup url with
  | some (timestamp, data) =>
      if c.is_valid now timestamp then (some data, c)
      else (none, { c with cache := c.cache.filter (fun p => p.1 != url) })
  | none => (none, c)

/-- `APICache.set`: store/overwrite the value under the URL with the current
timestamp. -/
def APICache.set (c : APICache) (now : Int) (url : String) (data : Json) : APICache :=
  { c with cache := (url, now, data) :: c.cache.filter (fun p => p.1 != url) }

/-! ## Typed exceptions (src/api/modules/errors.py) and the fetch path

The HTTP transport (`self.client.get`) is an external collaborator: it is
modelled as a function from URL to an `HttpResponse` (status code plus parsed
JSON body).  `fetch_api_request` is embedded with explicit state passing for
the cache and an explicit count of the HTTP GET requests it issues. -/

/-- The four exception classes of src/api/modules/errors.py, each carrying
its message. -/
inductive ApiException where
  | invalidAPIToken : String → ApiException
  | rateLimitExceeded : String → ApiException
  | apiError : String → ApiException
  | invalidParameter : String → ApiException
deriving DecidableEq

/-- An HTTP response: status code and already-parsed JSON body. -/
structure HttpResponse where
  status : Nat
  body : Json

/-- The message raised with `InvalidAPIToken` on status 403. -/
def msg403 : String :=
  "Your API token is invalid, or you have been completely blocked. Make sure to whitelist your IP address on the Clash Royale API Dashboard!"

/-- The message raised with `RateLimitExceeded` on status 429. -/
def msg429 : String := "Ratelimit has been exceeded, please try again later."

/-- The message raised with `APIError` on status 500. -/
def msg500 : String :=
  "Internal Server Error, please try again later. If problem persists, reach out to Supercell support."

/-- The message raised with `APIError` on status 503. -/
def msg503 : String :=
  "The official API is currently under maintenance or in different terms unavailable, please try again later."

/-- The message raised with `InvalidParameter` on status 400. -/
def msg400 : String :=
  "An invalid parameter was passed. Is the player tag correct? Make sure it follows the format like: #2VVYYRVYP"

/-- Result of one call to `RoyaleAPI.fetch_api_request`: the returned body or
raised exception, the cache afterwards, and how many HTTP GETs were issued. -/
structure FetchResult where
  result : Except ApiException Json
  cache : APICache
  networkCalls : Nat

/-- `RoyaleAPI.fetch_api_request` (src/api/api.py lines 628-657).  The cached
value is consulted first; Python binds `json_response` to the cache result
(None when absent, modelled by `Json.null`) and only contacts the network when
that value is falsy (`if not json_response`).  Status 200 parses and caches the
body; 403/429/500/503/400 raise the corresponding typed exception; any other
status falls through and the (falsy) `json_response` is returned unchanged. -/
def RoyaleAPI.fetch_api_request (cache : APICache) (now : Int)
    (transport : String → HttpResponse) (url : String) : FetchResult :=
  let looked := cache.get now url
  let json_response : Json := looked.1.getD Json.null
  if json_response.truthy then
    { result := .ok json_response, cache := looked.2, networkCalls := 0 }
  else
    let response := transport url
    if response.status = 200 then
      { result := .ok response.body
        cache := looked.2.set now url response.body
        networkCalls := 1 }
    else if response.status = 403 then
      { result := .error (.invalidAPIToken msg403), cache := looked.2, networkCalls := 1 }
    else if response.status = 429 then
      { result := .error (.rateLimitExceeded msg429), cache := looked.2, networkCalls := 1 }
    else if response.status = 500 then
      { result := .error (.apiError msg500), cache := looked.2, networkCalls := 1 }
    else if response.status = 503 then
      { result := .error (.apiError msg503), cache := looked.2, networkCalls := 1 }
    else if response.status = 400 then
      { result := .error (.invalidParameter msg400), cache := looked.2, networkCalls := 1 }
    else
      { result := .ok json_response, cache := looked.2, networkCalls := 1 }

/-! ## URL construction (src/api/api.py lines 659-663)

`player_tag.replace("#", "%23")` replaces every occurrence of the single
character `#` by the three characters `%23`; with a one-character pattern
Python str.replace is exactly a per-character substitution, embedded here at
the character-list level. -/

/-- Substitution applied to each character of the tag by
`player_tag.replace("#", "%23")`. -/
def encodeChar (c : Char) : List Char :=
  if c = '#' then ['%', '2', '3'] else [c]

/-- The tag-encoding step of `get_player`: percent-encode every `#`. -/
def encode_tag (player_tag : String) : String :=
  String.mk ((player_tag.data.map encodeChar).flatten)

/-- The URL built by `RoyaleAPI.get_player` for a given player tag. -/
def player_url (player_tag : String) : String :=
  "https://api.clashroyale.com/v1/players/" ++ encode_tag player_tag

/-! ## Lazy memoized field accessors (functools.cached_property)

`@cached_property` stores the computed value in the instance on first access
and returns the stored value on every later access, never recomputing and
never resetting.  The per-field memo slot is embedded as an `Option β`
(`none` = unconverted, `some v` = converted); a read returns the value, the
new memo state, and how many times the conversion body ran (0 or 1). -/

/-- One read of a `@cached_property` field whose body is `func` applied to the
wrapped JSON `data`, given the current memo slot. -/
def cached_property_get {β : Type} (func : Json → β) (data : Json) (memo : Option β) :
    β × Option β × Nat :=
  match memo with
  | some v => (v, some v, 0)
  | none => (func data, some (func data), 1)

/-! ## Wrapper objects (BaseCard, Player)

Each wrapper holds one JSON value by reference; the conversion bodies of the
accessors the claims mention are embedded as pure functions of that value,
with `cached_property_get` supplying the memoization. -/

/-- `BaseCard` wraps one card JSON object. -/
structure BaseCard where
  card_data : Json

/-- Conversion body of `BaseCard.name` (src/api/api.py lines 54-57):
`value = self.card_data.get("name"); return str(value) if value is not None
else None`. -/
def BaseCard.name_body (card_data : Json) : Except PyError (Option String) := do
  let value ← card_data.get "name"
  match value with
  | .null => return none
  | v => return (some v.pyStr)

/-- `BaseCard.name` evaluated on a fresh instance (first access). -/
def BaseCard.name (c : BaseCard) : Except PyError (Option String) :=
  BaseCard.name_body c.card_data

/-- `Player` wraps the player JSON body returned by `get_player`. -/
structure Player where
  data : Json

/-- `Player.name`: `str(self.data.get("name"))`. -/
def Player.name (p : Player) : Except PyError String := do
  let v ← p.data.get "name"
  return v.pyStr

/-- `Player.experience_level`: `int(self.data.get("expLevel"))`. -/
def Player.experience_level (p : Player) : Except PyError Int := do
  let v ← p.data.get "expLevel"
  v.pyInt

/-- `Player.trophies`: `int(self.data.get("trophies"))`. -/
def Player.trophies (p : Player) : Except PyError Int := do
  let v ← p.data.get "trophies"
  v.pyInt

/-- `Player.clan_tag` (src/api/api.py lines 406-408):
`str(self.data.get("clan")["tag"])` — `get` yields None when "clan" is absent
and subscripting None raises TypeError. -/
def Player.clan_tag (p : Player) : Except PyError String := do
  let clan ← p.data.get "clan"
  let tag ← clan.subscript "tag"
  return tag.pyStr

/-- `RoyaleAPI.get_player` (src/api/api.py lines 659-663): encode the tag,
build the URL, fetch (propagating any raised exception) and wrap the body in a
`Player`.  Also returns the cache afterwards and the network-call count. -/
def RoyaleAPI.get_player (cache : APICache) (now : Int)
    (transport : String → HttpResponse) (player_tag : String) :
    Except ApiException (Player × APICache × Nat) :=
  let url := player_url player_tag
  let r := RoyaleAPI.fetch_api_request cache now transport url
  match r.result with
  | .ok data => .ok (⟨data⟩, r.cache, r.networkCalls)
  | .error e => .error e

/-! ## Concrete fixtures used in counterexamples and witnesses -/

/-- A stub transport answering every URL with status 200 and the empty JSON
object (a falsy body in Python). -/
def emptyObjTransport : String → HttpResponse := fun _ => ⟨200, Json.obj []⟩

/-- A stub transport answering every URL with the given status and a null
body. -/
def statusTransport (s : Nat) : String → HttpResponse := fun _ => ⟨s, Json.null⟩

/-- The player body of the end-to-end scenario of the spec (section 8). -/
def ashBody : Json :=
  Json.obj
    [("name", Json.str "Ash"),
     ("expLevel", Json.num 13),
     ("trophies", Json.num 6800),
     ("clan", Json.obj
        [("tag", Json.str "#ABC"),
         ("name", Json.str "Ash Fans"),
         ("badgeId", Json.num 5)])]

/-- A stub transport answering every URL with status 200 and `ashBody`. -/
def ashTransport : String → HttpResponse := fun _ => ⟨200, ashBody⟩

/-! ## Helper lemmas on association-list lookup -/

/-- Looking up a key at the head of an association list. -/
theorem lookup_cons_self {β : Type} (a : String) (b : β) (l : List (String × β)) :
    List.lookup a ((a, b) :: l) = some b := by
  simp [List.lookup]

/-- Looking up a different key skips the head of an association list. -/
theorem lookup_cons_ne {β : Type} (a k : String) (b : β) (l : List (String × β))
    (h : k ≠ a) : List.lookup k ((a, b) :: l) = List.lookup k l := by
  simp [List.lookup, beq_eq_false_iff_ne.mpr h]

/-- Looking up a key after filtering out all pairs with that key yields none. -/
theorem lookup_filter_self {β : Type} (k : String) (l : List (String × β)) :
    (l.filter (fun p => p.1 != k)).lookup k = none := by
  induction l with
  | nil => rfl
  | cons h t ih =>
    rcases h with ⟨a, b⟩
    by_cases hk : a = k
    · rw [List.filter_cons_of_neg (by simp [hk])]
      exact ih
    · rw [List.filter_cons_of_pos (by simp [hk]), lookup_cons_ne a k b _ (Ne.symm hk)]
      exact ih

/-- Filtering out pairs with key `k` leaves lookups at any other key unchanged. -/
theorem lookup_filter_other {β : Type} (k k' : String) (hne : k' ≠ k)
    (l : List (String × β)) :
    (l.filter (fun p => p.1 != k)).lookup k' = l.lookup k' := by
  induction l with
  | nil => rfl
  | cons h t ih =>
    rcases h with ⟨a, b⟩
    by_cases hk : a = k
    · rw [List.filter_cons_of_neg (by simp [hk]),
        lookup_cons_ne a k' b t (hk ▸ hne), ih]
    · by_cases hk' : k' = a
      · rw [List.filter_cons_of_pos (by simp [hk]), hk', lookup_cons_self,
          lookup_cons_self]
      · rw [List.filter_cons_of_pos (by simp [hk]), lookup_cons_ne a k' b _ hk',
          lookup_cons_ne a k' b t hk', ih]

/-- **C3.** For every cache, key `k`, value `v`, store time `s` and elapsed
time `d`: after `set s k v`, a `get` at time `s + d` returns `v` when the TTL
is the never-expires sentinel (None) or when `d` is below the finite TTL, and
returns absent (None) when `d` has reached a finite TTL. -/
theorem apicache_set_get_ttl (c : APICache) (k : String) (v : Json) (s d : Int) :
    (c.ttl = none → ((c.set s k v).get (s + d) k).1 = some v)
    ∧ (∀ t, c.ttl = some t → d < t → ((c.set s k v).get (s + d) k).1 = some v)
    ∧ (∀ t, c.ttl = some t → t ≤ d → ((c.set s k v).get (s + d) k).1 = none) := by
  have hl : ((c.set s k v).cache.lookup k) = some (s, v) := by
    unfold APICache.set
    exact lookup_cons_self k (s, v) _
  have httl : (c.set s k v).ttl = c.ttl := rfl
  refine ⟨fun h => ?_, fun t h hd => ?_, fun t h hd => ?_⟩
  · have hv : (c.set s k v).is_valid (s + d) s = true := by
      simp [APICache.is_valid, httl, h]
    simp [APICache.get, hl, hv]
  · have hv : (c.set s k v).is_valid (s + d) s = true := by
      simp [APICache.is_valid, httl, h]
      omega
    simp [APICache.get, hl, hv]
  · have hv : (c.set s k v).is_valid (s + d) s = false := by
      simp [APICache.is_valid, httl, h]
      omega
    simp [APICache.get, hl, hv]

/-- Witness for C3: with TTL 300, a value stored at time 10 is returned at
time 100 and absent at time 400; with TTL None it is returned after an
arbitrarily long wait. -/
theorem apicache_set_get_ttl_witness :
    (((APICache.mk [] (some 300)).set 10 "u" (Json.num 1)
        |>.get (10 + 90) "u").1 = some (Json.num 1))
    ∧ (((APICache.mk [] (some 300)).set 10 "u" (Json.num 1)
        |>.get (10 + 390) "u").1 = none)
    ∧ (((APICache.mk [] none).set 10 "u" (Json.num 1)
        |>.get (10 + 1000000) "u").1 = some (Json.num 1)) :=
  ⟨(apicache_set_get_ttl (APICache.mk [] (some 300)) "u" (Json.num 1) 10 90).2.1
      300 rfl (by norm_num),
   (apicache_set_get_ttl (APICache.mk [] (some 300)) "u" (Json.num 1) 10 390).2.2
      300 rfl (by norm_num),
   (apicache_set_get_ttl (APICache.mk [] none) "u" (Json.num 1) 10 1000000).1 rfl⟩

/-- **C4.** For a key whose entry has expired (elapsed time at least the
finite TTL), `get` returns absent and removes the key from the mapping, so a
subsequent `get` before any new `set` also returns absent; lookups of every
other key are unchanged by the eviction. -/
theorem apicache_get_expired_evicts (c : APICache) (now : Int) (k : String)
    (t ts : Int) (v : Json)
    (httl : c.ttl = some t) (hl : c.cache.lookup k = some (ts, v))
    (hexp : t ≤ now - ts) :
    (c.get now k).1 = none
    ∧ ((c.get now k).2.cache.lookup k = none)
    ∧ (∀ k', k' ≠ k → (c.get now k).2.cache.lookup k' = c.cache.lookup k')
    ∧ (∀ now', (((c.get now k).2).get now' k).1 = none) := by
  have hv : c.is_valid now ts = false := by
    simp [APICache.is_valid, httl]
    omega
  have hg : c.get now k
      = (none, { c with cache := c.cache.filter (fun p => p.1 != k) }) := by
    simp [APICache.get, hl, hv]
  refine ⟨by rw [hg], ?_, ?_, ?_⟩
  · rw [hg]
    exact lookup_filter_self k c.cache
  · intro k' hk'
    rw [hg]
    exact lookup_filter_other k k' hk' c.cache
  · intro now'
    rw [hg]
    simp [APICache.get, lookup_filter_self k c.cache]

/-- Witness for C4: a TTL-5 cache holding entries for "u" (stored at 0) and
"w", queried for "u" at time 10: "u" is gone afterwards, also at a later
re-query, while "w" still looks up to its entry. -/
theorem apicache_get_expired_evicts_witness :
    (((APICache.mk [("u", 0, Json.num 1), ("w", 0, Json.num 2)] (some 5)).get
        10 "u").1 = none)
    ∧ ((((APICache.mk [("u", 0, Json.num 1), ("w", 0, Json.num 2)] (some 5)).get
        10 "u").2.cache.lookup "u") = none)
    ∧ ((((APICache.mk [("u", 0, Json.num 1), ("w", 0, Json.num 2)] (some 5)).get
        10 "u").2.cache.lookup "w")
      = (APICache.mk [("u", 0, Json.num 1), ("w", 0, Json.num 2)] (some 5)).cache.lookup "w")
    ∧ ((((APICache.mk [("u", 0, Json.num 1), ("w", 0, Json.num 2)] (some 5)).get
        10 "u").2.get 11 "u").1 = none) := by
  have h := apicache_get_expired_evicts
    (APICache.mk [("u", 0, Json.num 1), ("w", 0, Json.num 2)] (some 5))
    10 "u" 5 0 (Json.num 1) rfl (by simp [List.lookup]) (by norm_num)
  exact ⟨h.1, h.2.1, h.2.2.1 "w" (by decide), h.2.2.2 11⟩

/-- **C2.** For a URL not present in the cache, statuses 400, 403, 429, 500
and 503 raise exactly InvalidParameter, InvalidAPIToken, RateLimitExceeded,
APIError and APIError respectively, with one HTTP GET issued and the cache
left unchanged. -/
theorem fetch_error_mapping (c : APICache) (now : Int)
    (transport : String → HttpResponse) (url : String)
    (h : c.cache.lookup url = none) :
    ((transport url).status = 400 →
      RoyaleAPI.fetch_api_request c now transport url
        = ⟨.error (.invalidParameter msg400), c, 1⟩)
    ∧ ((transport url).status = 403 →
      RoyaleAPI.fetch_api_request c now transport url
        = ⟨.error (.invalidAPIToken msg403), c, 1⟩)
    ∧ ((transport url).status = 429 →
      RoyaleAPI.fetch_api_request c now transport url
        = ⟨.error (.rateLimitExceeded msg429), c, 1⟩)
    ∧ ((transport url).status = 500 →
      RoyaleAPI.fetch_api_request c now transport url
        = ⟨.error (.apiError msg500), c, 1⟩)
    ∧ ((transport url).status = 503 →
      RoyaleAPI.fetch_api_request c now transport url
        = ⟨.error (.apiError msg503), c, 1⟩) := by
  have hget : c.get now url = (none, c) := by
    simp [APICache.get, h]
  refine ⟨fun hs => ?_, fun hs => ?_, fun hs => ?_, fun hs => ?_, fun hs => ?_⟩ <;>
    simp [RoyaleAPI.fetch_api_request, hget, hs, Json.truthy]

/-- Witness for C2: each of the five statuses against an empty cache. -/
theorem fetch_error_mapping_witness :
    (RoyaleAPI.fetch_api_request (APICache.mk [] (some 300)) 0 (statusTransport 400) "u"
      = ⟨.error (.invalidParameter msg400), APICache.mk [] (some 300), 1⟩)
    ∧ (RoyaleAPI.fetch_api_request (APICache.mk [] (some 300)) 0 (statusTransport 403) "u"
      = ⟨.error (.invalidAPIToken msg403), APICache.mk [] (some 300), 1⟩)
    ∧ (RoyaleAPI.fetch_api_request (APICache.mk [] (some 300)) 0 (statusTransport 429) "u"
      = ⟨.error (.rateLimitExceeded msg429), APICache.mk [] (some 300), 1⟩)
    ∧ (RoyaleAPI.fetch_api_request (APICache.mk [] (some 300)) 0 (statusTransport 500) "u"
      = ⟨.error (.apiError msg500), APICache.mk [] (some 300), 1⟩)
    ∧ (RoyaleAPI.fetch_api_request (APICache.mk [] (some 300)) 0 (statusTransport 503) "u"
      = ⟨.error (.apiError msg503), APICache.mk [] (some 300), 1⟩) :=
  ⟨(fetch_error_mapping (APICache.mk [] (some 300)) 0 (statusTransport 400) "u" rfl).1 rfl,
   (fetch_error_mapping (APICache.mk [] (some 300)) 0 (statusTransport 403) "u" rfl).2.1 rfl,
   (fetch_error_mapping (APICache.mk [] (some 300)) 0 (statusTransport 429) "u" rfl).2.2.1 rfl,
   (fetch_error_mapping (APICache.mk [] (some 300)) 0 (statusTransport 500) "u" rfl).2.2.2.1 rfl,
   (fetch_error_mapping (APICache.mk [] (some 300)) 0 (statusTransport 503) "u" rfl).2.2.2.2 rfl⟩

/-- **C8.** For a URL not present in the cache, a status outside
200/400/403/429/500/503 (e.g. 404) raises nothing, silently returns the
absent body None, and writes nothing to the cache. -/
theorem fetch_unclassified_status (c : APICache) (now : Int)
    (transport : String → HttpResponse) (url : String)
    (h : c.cache.lookup url = none)
    (hs : (transport url).status ∉ ([200, 400, 403, 429, 500, 503] : List Nat)) :
    RoyaleAPI.fetch_api_request c now transport url = ⟨.ok Json.null, c, 1⟩ := by
  have hget : c.get now url = (none, c) := by
    simp [APICache.get, h]
  simp only [List.mem_cons, List.mem_singleton, not_or] at hs
  obtain ⟨h200, h400, h403, h429, h500, h503, -⟩ := hs
  simp [RoyaleAPI.fetch_api_request, hget, Json.truthy,
    h200, h400, h403, h429, h500, h503]

/-- Witness for C8: status 404 against an empty cache. -/
theorem fetch_unclassified_status_witness :
    RoyaleAPI.fetch_api_request (APICache.mk [] (some 300)) 0 (statusTransport 404) "u"
      = ⟨.ok Json.null, APICache.mk [] (some 300), 1⟩ :=
  fetch_unclassified_status (APICache.mk [] (some 300)) 0 (statusTransport 404) "u"
    rfl (by decide)

/-- Counterexample to C1 as stated: after a first `fetch_api_request` has
fetched and cached the empty-object body (a falsy value) for "u", a second
call within the TTL window still issues one HTTP GET instead of the claimed
zero, because `if not json_response` treats the cached empty object as a
cache miss. -/
theorem fetch_cached_falsy_refetches_cex :
    (RoyaleAPI.fetch_api_request
        (RoyaleAPI.fetch_api_request (APICache.mk [] (some 300)) 0
          emptyObjTransport "u").cache
        0 emptyObjTransport "u").networkCalls = 1 := by
  rfl

/-- **C1 (amended).** For every URL whose cached entry is within the TTL
window and whose body is truthy (e.g. a nonempty JSON object), a second
`fetch_api_request` issues zero HTTP GETs and returns the cached body
unchanged; for falsy bodies such as the empty object the cache hit is
ignored and a fresh HTTP GET is issued. -/
theorem fetch_cache_hit_truthy (c : APICache) (now : Int)
    (transport : String → HttpResponse) (url : String) (b : Json)
    (hb : (c.get now url).1 = some b) (ht : b.truthy = true) :
    RoyaleAPI.fetch_api_request c now transport url
      = ⟨.ok b, (c.get now url).2, 0⟩ := by
  simp [RoyaleAPI.fetch_api_request, hb, ht]

/-- Witness for the amended C1: a cached nonempty object is returned with no
network call, unchanged. -/
theorem fetch_cache_hit_truthy_witness :
    ((APICache.mk [("u", 0, Json.obj [("a", Json.num 1)])] (some 300)).get 0 "u").1
      = some (Json.obj [("a", Json.num 1)])
    ∧ RoyaleAPI.fetch_api_request
        (APICache.mk [("u", 0, Json.obj [("a", Json.num 1)])] (some 300)) 0
        emptyObjTransport "u"
      = ⟨.ok (Json.obj [("a", Json.num 1)]),
         ((APICache.mk [("u", 0, Json.obj [("a", Json.num 1)])] (some 300)).get 0 "u").2,
         0⟩ :=
  ⟨rfl,
   fetch_cache_hit_truthy
     (APICache.mk [("u", 0, Json.obj [("a", Json.num 1)])] (some 300)) 0
     emptyObjTransport "u" (Json.obj [("a", Json.num 1)]) rfl rfl⟩

/-! ## C5: URL construction lemmas -/

/-- The percent-encoding substitution never emits a literal hash. -/
theorem hash_not_mem_encodeChar (c : Char) : '#' ∉ encodeChar c := by
  unfold encodeChar
  split
  · decide
  · rename_i h
    simp only [List.mem_singleton]
    exact fun hc => h hc.symm

/-- No literal hash survives encoding a whole tag. -/
theorem hash_not_mem_encoded (l : List Char) : '#' ∉ (l.map encodeChar).flatten := by
  induction l with
  | nil => simp
  | cons c t ih =>
    intro hmem
    rw [List.map_cons, List.flatten_cons] at hmem
    rcases List.mem_append.mp hmem with hc | hc
    · exact hash_not_mem_encodeChar c hc
    · exact ih hc

/-- Encoding a tag containing a hash puts the three characters `%23` in its
place. -/
theorem hash_encoded_infix (l : List Char) (h : '#' ∈ l) :
    ∃ s t, (l.map encodeChar).flatten = s ++ ['%', '2', '3'] ++ t := by
  induction l with
  | nil => cases h
  | cons c t ih =>
    rcases List.mem_cons.mp h with hc | hc
    · exact ⟨[], (t.map encodeChar).flatten, by simp [encodeChar, ← hc]⟩
    · obtain ⟨s, u, hsu⟩ := ih hc
      exact ⟨encodeChar c ++ s, u, by simp [hsu]⟩

/-- The characters of the player URL: the fixed endpoint prefix followed by
the encoded tag. -/
theorem player_url_data (tag : String) :
    (player_url tag).data
      = "https://api.clashroyale.com/v1/players/".data
        ++ (tag.data.map encodeChar).flatten := by
  unfold player_url encode_tag
  rw [String.data_append]

/-- **C5.** URL construction is deterministic (the tag-to-URL step is a pure
function, so equal tags give equal URLs), and for every tag containing `#`
the resulting URL contains the characters `%23` in its place and no literal
`#`. -/
theorem get_player_url_encoding (tag : String) :
    (∀ tag2 : String, tag2 = tag → player_url tag2 = player_url tag)
    ∧ ('#' ∈ tag.data →
        (∃ s t, (player_url tag).data = s ++ ['%', '2', '3'] ++ t)
        ∧ '#' ∉ (player_url tag).data) := by
  refine ⟨fun tag2 h => by rw [h], fun h => ⟨?_, ?_⟩⟩
  · obtain ⟨s, t, hst⟩ := hash_encoded_infix tag.data h
    refine ⟨"https://api.clashroyale.com/v1/players/".data ++ s, t, ?_⟩
    rw [player_url_data, hst]
    simp [List.append_assoc]
  · rw [player_url_data]
    intro hmem
    rcases List.mem_append.mp hmem with hc | hc
    · revert hc
      decide
    · exact hash_not_mem_encoded tag.data hc

/-- Witness for C5 at the tag `#2VVYYRVYP`. -/
theorem get_player_url_encoding_witness :
    ('#' ∈ "#2VVYYRVYP".data)
    ∧ (∃ s t, (player_url "#2VVYYRVYP").data = s ++ ['%', '2', '3'] ++ t)
    ∧ '#' ∉ (player_url "#2VVYYRVYP").data :=
  ⟨by decide,
   ((get_player_url_encoding "#2VVYYRVYP").2 (by decide)).1,
   ((get_player_url_encoding "#2VVYYRVYP").2 (by decide)).2⟩

/-- **C6.** End-to-end: with a transport answering status 200 and the Ash
body, `get_player` on tag `#2VVYYRVYP` returns a `Player` wrapping that body
(one GET, body cached under the built URL), whose accessors give
name "Ash", experience_level 13, trophies 6800 and clan_tag "#ABC". -/
theorem get_player_end_to_end :
    RoyaleAPI.get_player (APICache.mk [] none) 0 ashTransport "#2VVYYRVYP"
      = .ok (⟨ashBody⟩, APICache.mk [(player_url "#2VVYYRVYP", 0, ashBody)] none, 1)
    ∧ Player.name ⟨ashBody⟩ = .ok "Ash"
    ∧ Player.experience_level ⟨ashBody⟩ = .ok 13
    ∧ Player.trophies ⟨ashBody⟩ = .ok 6800
    ∧ Player.clan_tag ⟨ashBody⟩ = .ok "#ABC" :=
  ⟨rfl, rfl, rfl, rfl, rfl⟩

/-- **C7.** Memoization of `@cached_property` fields: on a fresh wrapper the
first read runs the conversion body once and stores the result, the second
read returns the identical value without running the body, and a converted
memo slot is never reset: from any converted state every read returns the
stored value, keeps the state, and runs the body zero times. -/
theorem cached_property_memoizes {β : Type} (func : Json → β) (data : Json) :
    (cached_property_get func data none).1
      = (cached_property_get func data (cached_property_get func data none).2.1).1
    ∧ (cached_property_get func data none).2.2 = 1
    ∧ (cached_property_get func data (cached_property_get func data none).2.1).2.2 = 0
    ∧ (cached_property_get func data none).2.1 = some (cached_property_get func data none).1
    ∧ (∀ v : β, cached_property_get func data (some v) = (v, some v, 0))
    ∧ (cached_property_get BaseCard.name_body data none).1 = BaseCard.name ⟨data⟩ :=
  ⟨rfl, rfl, rfl, rfl, fun _ => rfl, rfl⟩

/-- **C9.** Missing-field handling is inconsistent: on a card object with no
"name" key, `BaseCard.name` returns the default None without raising, while
on a player object with no "clan" key, `Player.clan_tag` raises (subscripting
the absent nested object fails with a TypeError). -/
theorem missing_field_inconsistency (cardFields playerFields : List (String × Json))
    (h1 : cardFields.lookup "name" = none)
    (h2 : playerFields.lookup "clan" = none) :
    BaseCard.name ⟨Json.obj cardFields⟩ = .ok none
    ∧ Player.clan_tag ⟨Json.obj playerFields⟩
        = .error (.typeError "NoneType object is not subscriptable") := by
  constructor
  · simp only [BaseCard.name, BaseCard.name_body, Json.get, h1]
    rfl
  · simp only [Player.clan_tag, Json.get, h2]
    rfl

/-- Witness for C9 at concrete empty JSON objects. -/
theorem missing_field_inconsistency_witness :
    BaseCard.name ⟨Json.obj []⟩ = .ok none
    ∧ Player.clan_tag ⟨Json.obj []⟩
        = .error (.typeError "NoneType object is not subscriptable") :=
  missing_field_inconsistency [] [] rfl rfl
